import Mathlib

/-!
Verification of the check-verification route and the transaction-ledger
helpers of the CS160 online-banking repository.

The TypeScript sources are shallowly embedded:
* provider-shaped recognition output (`AnyObj` / arbitrary JSON-like data)
  is the inductive `Value`;
* JavaScript `undefined` is `Option.none` at access sites, JavaScript
  `null` is the `Value.null` constructor;
* JavaScript numbers appearing in this code path are integers and exact
  decimal fractions; they are modelled as `Int` / `Rat` (exact
  arithmetic), with `Math.round` modelled as round-half-up;
* the storage layer (Prisma) is modelled as an explicit list of
  transaction records plus an error type distinguishing the
  `P2002` unique-constraint violation.
-/

set_option maxHeartbeats 2000000

namespace Spec2Proof

/-- JSON-like value, the shape of recognition-provider output
(`AnyObj = Record<string, unknown>` plus nested arrays/scalars). -/
inductive Value where
  | null
  | bool (b : Bool)
  | num (n : Int)
  | str (s : String)
  | arr (elems : List Value)
  | obj (fields : List (String × Value))

/-- A JavaScript object value (`AnyObj` in the source): ordered fields. -/
abbrev AnyObj := List (String × Value)

/-- Property read `o[k]` on an object: `none` models `undefined`. -/
def lookupField (o : AnyObj) (k : String) : Option Value :=
  (o.find? (fun f => f.1 == k)).map (fun f => f.2)

/-- `o[k1] ?? o[k2] ?? ...`: first key whose value is neither `undefined`
nor `null`. -/
def nullishGet (o : AnyObj) : List String → Option Value
  | [] => none
  | k :: ks =>
    match lookupField o k with
    | some Value.null => nullishGet o ks
    | some v => some v
    | none => nullishGet o ks

/-- Decimal digits of a natural number, most significant first
(the rendering `String(n)` of an integer JavaScript number). -/
def natToDigits (n : Nat) : List Char :=
  if _h : n < 10 then [Nat.digitChar n]
  else natToDigits (n / 10) ++ [Nat.digitChar (n % 10)]
decreasing_by exact Nat.div_lt_self (by omega) (by omega)

def natRender (n : Nat) : String := String.mk (natToDigits n)

/-- `String(v)` for an integer JavaScript number. -/
def intRender (k : Int) : String :=
  if k < 0 then "-" ++ natRender k.natAbs else natRender k.toNat

/-- Value of a list of decimal digit characters (`Number` on a pure
digit string). -/
def digitsToNat (l : List Char) : Nat :=
  l.foldl (fun a c => 10 * a + (c.toNat - 48)) 0

def isDigits (l : List Char) : Bool := l.all Char.isDigit

/-- Source `toStr` (used by `extractCheckId` / `extractAmount`):
`null`/`undefined` give `null`; strings and numbers are stringified;
everything else gives `null`. -/
def jsToStr : Option Value → Option String
  | none => none
  | some Value.null => none
  | some (Value.str s) => some s
  | some (Value.num k) => some (intRender k)
  | some (Value.bool _) => none
  | some (Value.arr _) => none
  | some (Value.obj _) => none

/-- JavaScript truthiness of a possibly-absent string. -/
def jsTruthyStr : Option String → Bool
  | none => false
  | some s => !(s == "")

/-- JavaScript truthiness of a possibly-absent number (`0` is falsy). -/
def jsTruthyNat : Option Nat → Bool
  | none => false
  | some n => !(n == 0)

/-- JavaScript truthiness of a property-read result
(`undefined`, `null`, `false`, `0`, `""` falsy; objects/arrays truthy). -/
def jsTruthyVal : Option Value → Bool
  | none => false
  | some Value.null => false
  | some (Value.bool b) => b
  | some (Value.num k) => !(k == 0)
  | some (Value.str s) => !(s == "")
  | some (Value.arr _) => true
  | some (Value.obj _) => true

mutual

/-- Source `collectStrings`: depth-first, field-order walk collecting
every string leaf. -/
def collectStrings : Value → List String
  | Value.str s => [s]
  | Value.arr l => collectStringsList l
  | Value.obj fs => collectStringsFields fs
  | Value.null => []
  | Value.bool _ => []
  | Value.num _ => []

def collectStringsList : List Value → List String
  | [] => []
  | v :: vs => collectStrings v ++ collectStringsList vs

def collectStringsFields : List (String × Value) → List String
  | [] => []
  | f :: fs => collectStrings f.2 ++ collectStringsFields fs

end

/-- `parts.join(" ")` over the flattened strings of an object. -/
def flattenText (o : AnyObj) : String :=
  String.intercalate " " (collectStringsFields o)

/-- Maximal runs of consecutive decimal digits in a character list. -/
def digitRuns : List Char → List (List Char)
  | [] => []
  | c :: rest =>
    let rs := digitRuns rest
    if c.isDigit then
      match rest with
      | d :: _ =>
        if d.isDigit then
          match rs with
          | r :: rs' => (c :: r) :: rs'
          | [] => [[c]]
        else [c] :: rs
      | [] => [[c]]
    else rs

/-- First match of `/(\d{9})/`: the first 9 digits of the first maximal
digit run of length at least 9. -/
def firstNineRun (l : List Char) : Option String :=
  ((digitRuns l).find? (fun r => 9 ≤ r.length)).map
    (fun r => String.mk (r.take 9))

/-- All matches of `/(\d{4,})/g`: the maximal digit runs of length ≥ 4. -/
def digitGroupStrings (l : List Char) : List String :=
  ((digitRuns l).filter (fun r => 4 ≤ r.length)).map String.mk

/-- Structured-field branch of source `extractCheckId`
(lines reading `routing_number ?? routing ?? aba` etc., guarded by
JavaScript truthiness of all three strings). -/
def structuredId (ocr : AnyObj) : Option String :=
  let routing := jsToStr (nullishGet ocr ["routing_number", "routing", "aba"])
  let account := jsToStr (nullishGet ocr ["account_number", "account"])
  let check := jsToStr (nullishGet ocr ["check_number", "check_no", "cheque_number"])
  match routing, account, check with
  | some r, some a, some c =>
    if r ≠ "" ∧ a ≠ "" ∧ c ≠ "" then some (r ++ "_" ++ a ++ "_" ++ c) else none
  | _, _, _ => none

/-- Source `extractCheckId`: structured fields first, else the
9-digit-run / length-≥4-digit-group heuristic over the flattened text. -/
def extractCheckId (ocr : AnyObj) : Option String :=
  match structuredId ocr with
  | some s => some s
  | none =>
    let allText := flattenText ocr
    match firstNineRun allText.toList with
    | none => none
    | some routingNum =>
      let filtered := (digitGroupStrings allText.toList).filter (fun g => g ≠ routingNum)
      match filtered with
      | a :: c :: _ => some (routingNum ++ "_" ++ a ++ "_" ++ c)
      | _ => none

/-! ## Amount extraction (source `extractAmount`) -/

/-- Separator class `[.,]` of the amount patterns. -/
def isSep (c : Char) : Bool := c == '.' || c == ','

/-- Final `[.,][0-9]{2}` of the amount patterns, matched at the front of
the list; returns the consumed characters. -/
def finalCents : List Char → Option (List Char)
  | s :: d1 :: d2 :: _ =>
    if isSep s ∧ d1.isDigit ∧ d2.isDigit then some [s, d1, d2] else none
  | _ => none

/-- `(?:[.,][0-9]{3})*(?:[.,][0-9]{2})` with the greedy, backtracking
semantics of the JavaScript engine; returns the consumed characters. -/
def sepGroups : List Char → Option (List Char)
  | s :: d1 :: d2 :: d3 :: rest =>
    if isSep s ∧ d1.isDigit ∧ d2.isDigit ∧ d3.isDigit then
      match sepGroups rest with
      | some c => some (s :: d1 :: d2 :: d3 :: c)
      | none => finalCents (s :: d1 :: d2 :: d3 :: rest)
    else finalCents (s :: d1 :: d2 :: d3 :: rest)
  | l => finalCents l

/-- `[0-9]{1,3}` (greedy, backtracking from `n` leading digits down)
followed by `sepGroups`, at the front of the list. -/
def numTailAux (l : List Char) : Nat → Option (List Char)
  | 0 => none
  | n + 1 =>
    if (l.take (n + 1)).length = n + 1 ∧ (l.take (n + 1)).all Char.isDigit then
      match sepGroups (l.drop (n + 1)) with
      | some c => some (l.take (n + 1) ++ c)
      | none => numTailAux l n
    else numTailAux l n

/-- Capture group `([0-9]{1,3}(?:[.,][0-9]{3})*(?:[.,][0-9]{2}))` matched
at the front of the list. -/
def numTail (l : List Char) : Option (List Char) := numTailAux l 3

/-- JavaScript `\s` on the characters that occur here. -/
def isJsWs (c : Char) : Bool :=
  c == ' ' || c == '\t' || c == '\n' || c == '\r' ||
  c == Char.ofNat 11 || c == Char.ofNat 12

/-- `/(?:\$|USD\s?)\s*(...)/i` scanned left to right; returns the first
capture (leftmost match wins, as for `String.prototype.match`). -/
def scanDollar : List Char → Option (List Char)
  | [] => none
  | c :: rest =>
    let here : Option (List Char) :=
      if c = '$' then numTail (rest.dropWhile isJsWs)
      else
        match c :: rest with
        | u :: s :: d :: rest' =>
          if u.toLower = 'u' ∧ s.toLower = 's' ∧ d.toLower = 'd' then
            numTail (rest'.dropWhile isJsWs)
          else none
        | _ => none
    match here with
    | some cap => some cap
    | none => scanDollar rest

/-- `/([0-9]{1,3}(?:[.,][0-9]{3})*[.,][0-9]{2})/` scanned left to right. -/
def scanPlain : List Char → Option (List Char)
  | [] => none
  | c :: rest =>
    match numTail (c :: rest) with
    | some cap => some cap
    | none => scanPlain rest

/-- `.replace(/,/g, ".")` on a captured group. -/
def commasToDots (l : List Char) : String :=
  String.mk (l.map (fun ch => if ch = ',' then '.' else ch))

/-- Longest candidate, first among ties (stable descending length sort,
element 0). -/
def longestGroup (g : List Char) (gs : List (List Char)) : List Char :=
  gs.foldl (fun best x => if best.length < x.length then x else best) g

/-- Last-resort digit-run amount heuristic of `extractAmount`
(`allText.replace(/[^\d]/g, " ").split(/\s+/)` yields exactly the maximal
digit runs). -/
def lastResortAmount (l : List Char) : Option String :=
  let candidates := (digitRuns l).filter (fun g => 4 ≤ g.length ∧ g.length ≤ 7)
  match candidates with
  | [] => none
  | [g] =>
    some (natRender (digitsToNat (g.take (g.length - 2))) ++ "." ++
      String.mk (g.drop (g.length - 2)))
  | g :: gs =>
    let best := longestGroup g gs
    some (natRender (digitsToNat (best.take (best.length - 2))) ++ "." ++
      String.mk (best.drop (best.length - 2)))

/-- Pattern part of `extractAmount` over the flattened text. -/
def textualAmount (ocr : AnyObj) : Option String :=
  let allText := (flattenText ocr).toList
  match scanDollar allText with
  | some cap => some (commasToDots cap)
  | none =>
    match scanPlain allText with
    | some cap => some (commasToDots cap)
    | none => lastResortAmount allText

/-- Source `extractAmount`: structured amount aliases first (an empty
string is truthy-rejected and falls through), else the text patterns. -/
def extractAmount (ocr : AnyObj) : Option String :=
  let structured :=
    (jsToStr (lookupField ocr "amount")).orElse (fun _ =>
      (jsToStr (lookupField ocr "amount_numeric")).orElse (fun _ =>
        (jsToStr (lookupField ocr "legal_amount")).orElse (fun _ =>
          jsToStr (lookupField ocr "written_amount"))))
  match structured with
  | some s => if s ≠ "" then some s else textualAmount ocr
  | none => textualAmount ocr

/-! ## Endorsement detection (source `detectEndorsement`) -/

/-- `needle` starts `hay`. -/
def startsList : List Char → List Char → Bool
  | _, [] => true
  | [], _ :: _ => false
  | h :: hs, n :: ns => h == n && startsList hs ns

/-- `needle` occurs as a contiguous sublist of `hay`. -/
def containsSub (needle : List Char) : List Char → Bool
  | [] => needle.isEmpty
  | c :: rest => startsList (c :: rest) needle || containsSub needle rest

/-- Source `detectEndorsement`: explicit flags, endorsement image
truthiness, else the keyword regex over the lowercased flattened text. -/
def detectEndorsement (ocr : AnyObj) : Bool :=
  if lookupField ocr "endorsement" matches some (Value.bool true) then true
  else if lookupField ocr "signature_present" matches some (Value.bool true) then true
  else if jsTruthyVal (lookupField ocr "endorsement_image") then true
  else
    let allText := (flattenText ocr).toList.map Char.toLower
    containsSub "endorse".toList allText ||
    containsSub "endorsement".toList allText ||
    containsSub "signed by".toList allText ||
    containsSub "signature".toList allText

/-! ## Amount canonicalization (POST handler, cents computation) -/

/-- Characters kept by `String(amount).replace(/[^0-9.-]/g, "")`. -/
def keepAmountChar (c : Char) : Bool := c.isDigit || c == '.' || c == '-'

/-- `Number(s)` on a string over the post-strip alphabet
(digits, `.`, `-`): `""` is `0`, at most one leading minus sign, at most
one decimal point, at least one digit; anything else is `NaN` (`none`). -/
def jsNumber (l : List Char) : Option Rat :=
  match l with
  | [] => some 0
  | _ =>
    let p : Bool × List Char :=
      match l with
      | '-' :: rest => (true, rest)
      | _ => (false, l)
    let neg := p.1
    let l1 := p.2
    if l1.contains '-' then none
    else
      let ip := l1.takeWhile (fun c => !(c == '.'))
      let rest := l1.dropWhile (fun c => !(c == '.'))
      let fp := rest.tail
      if fp.contains '.' then none
      else if ip.isEmpty && fp.isEmpty then none
      else if isDigits ip && isDigits fp then
        some ((if neg then -1 else 1) *
          ((digitsToNat ip : Rat) + (digitsToNat fp : Rat) / ((10 : Rat) ^ fp.length)))
      else none

/-- `Math.round`: round half up (toward positive infinity). -/
def jsRound (q : Rat) : Int := ⌊q + 1/2⌋

/-- POST-handler cents computation:
`if (amountString) { parsed = Number(strip); finite ? round(parsed*100) : null }`. -/
def amountCentsOf : Option String → Option Int
  | none => none
  | some s =>
    if s = "" then none
    else
      match jsNumber (s.toList.filter keepAmountChar) with
      | some q => some (jsRound (q * 100))
      | none => none

/-- Two-digit zero-padded rendering of a value below 100. -/
def padFrac (r : Nat) : List Char :=
  if r < 10 then ['0', Nat.digitChar r] else natToDigits r

/-- The claim's rendering of a non-negative cents value as a decimal
string with exactly two fractional digits. -/
def renderCents (n : Nat) : String :=
  String.mk (natToDigits (n / 100) ++ '.' :: padFrac (n % 100))

/-! ## POST handler pieces (`src/app/api/check-verification/route.ts`) -/

/-- Source `normalizeOcrSpaceResult`. -/
def normalizeOcrSpaceResult (r : AnyObj) : String :=
  match lookupField r "ParsedResults" with
  | some (Value.arr (first :: _)) =>
    match first with
    | Value.obj o =>
      match lookupField o "ParsedText" with
      | some (Value.str s) => s
      | _ => ""
    | _ => ""
  | _ =>
    match lookupField r "ParsedText" with
    | some (Value.str s) => s
    | _ => ""

/-- `raw_text` if it is a string, else `normalizeOcrSpaceResult`. -/
def rawTextOf (r : AnyObj) : String :=
  match lookupField r "raw_text" with
  | some (Value.str s) => s
  | _ => normalizeOcrSpaceResult r

/-- The `combinedText` local of the POST handler. -/
def combinedTextOf (front back : AnyObj) : String :=
  rawTextOf front ++ "\n" ++ rawTextOf back

/-- The `ocrJson` object assembled by the POST handler. -/
def ocrJsonOf (front back : AnyObj) (combined : Option AnyObj) : AnyObj :=
  [("parsed_text", Value.str (combinedTextOf front back)),
   ("front", Value.obj front),
   ("back", Value.obj back),
   ("combined", Value.obj (combined.getD []))]

/-- A thrown TypeError (property read on `null`), caught by the outer
`try`/`catch` of the handler. -/
inductive JsError where
  | nullAccess
deriving DecidableEq

/-- The `checkId` expression of the POST handler: `combined.check_id`
verbatim when the combined-provider response carries it as a string
(`typeof null === "object"`, so a `null` combined field throws), else
`extractCheckId(ocrJson)`. -/
def checkIdSelect (combinedResp : Option AnyObj) (ocrJson : AnyObj) :
    Except JsError (Option String) :=
  match combinedResp with
  | none => Except.ok (extractCheckId ocrJson)
  | some c =>
    match lookupField c "combined" with
    | some Value.null => Except.error JsError.nullAccess
    | some (Value.obj comb) =>
      match lookupField comb "check_id" with
      | some (Value.str s) => Except.ok (some s)
      | _ => Except.ok (extractCheckId ocrJson)
    | some (Value.arr _) => Except.ok (extractCheckId ocrJson)
    | _ => Except.ok (extractCheckId ocrJson)

/-- `typeof r["amount"] === "string" ? r["amount"] : null`. -/
def tryStrAmount (r : AnyObj) : Option String :=
  match lookupField r "amount" with
  | some (Value.str s) => some s
  | _ => none

/-- The `tryCombined` closure of the `amountString` expression
(same `typeof`-object guard, so a `null` combined field throws). -/
def tryCombinedAmount (c : Option AnyObj) : Except JsError (Option String) :=
  match c with
  | none => Except.ok none
  | some c =>
    match lookupField c "combined" with
    | some Value.null => Except.error JsError.nullAccess
    | some (Value.obj comb) =>
      match lookupField comb "amount" with
      | some (Value.str s) => Except.ok (some s)
      | _ => Except.ok none
    | _ => Except.ok none

/-- The `amountString` expression of the POST handler. -/
def amountStringSel (front back : AnyObj) (combined : Option AnyObj)
    (ocrJson : AnyObj) : Except JsError (Option String) :=
  match tryStrAmount front with
  | some s => Except.ok (some s)
  | none =>
    match tryStrAmount back with
    | some s => Except.ok (some s)
    | none =>
      match tryCombinedAmount combined with
      | Except.error e => Except.error e
      | Except.ok (some s) => Except.ok (some s)
      | Except.ok none => Except.ok (extractAmount ocrJson)

/-- `r["endorsement_present"] === true || r["endorsement_present"] === "true"`
(the `r && ...` prefix is always truthy: `r` is an object). -/
def tryBoolEndorsement (r : AnyObj) : Bool :=
  (lookupField r "endorsement_present" matches some (Value.bool true)) ||
  (lookupField r "endorsement_present" matches some (Value.str "true"))

/-- JavaScript `??`: keep the left operand unless it is nullish. -/
def jsNullishOr (a b : Option α) : Option α :=
  match a with
  | some x => some x
  | none => b

/-- The `endorsementPresent` expression of the POST handler. Every
operand of the `??` chain is a boolean (never nullish), so the chain
stops at its first operand, `tryBool(backResp)`. -/
def endorsementOf (front back ocrJson : AnyObj) : Bool :=
  (jsNullishOr (some (tryBoolEndorsement back))
    (jsNullishOr (some (tryBoolEndorsement front))
      (jsNullishOr (some (detectEndorsement back))
        (some (detectEndorsement ocrJson))))).getD false

/-- Response of the POST handler, restricted to the fields the claims
are about. `depositIssued` records whether the deposit-forward fetch is
attempted (`destAccount && amountCents !== null`); its network outcome
never changes the response. -/
structure CheckResponse where
  status : Nat
  check_id : Option String
  amount : Option String
  endorsement_present : Bool
  depositIssued : Bool
deriving DecidableEq

/-- Core of the POST handler after authentication, image upload and the
recognition calls (all external I/O): from the two per-side recognition
results, the optional combined-provider response and the resolved
destination account, compute the response. The outer `catch` maps a
thrown TypeError to the 500 response. -/
def postCore (front back : AnyObj) (combined : Option AnyObj)
    (destAccount : Option String) : CheckResponse :=
  let ocrJson := ocrJsonOf front back combined
  match checkIdSelect combined ocrJson with
  | Except.error _ => ⟨500, none, none, false, false⟩
  | Except.ok none => ⟨400, none, none, false, false⟩
  | Except.ok (some cid) =>
    match amountStringSel front back combined ocrJson with
    | Except.error _ => ⟨500, none, none, false, false⟩
    | Except.ok amountString =>
      let endorsement := endorsementOf front back ocrJson
      let amountCents := amountCentsOf amountString
      let depositIssued := destAccount.isSome && amountCents.isSome
      ⟨201, some cid, amountString, endorsement, depositIssued⟩

/-! ## Transaction-ledger helpers (`src/unnamed/part_000`, second file) -/

/-- Storage-layer error: a Prisma known request error with its code, or
any other error. `known "P2002"` is the unique-constraint violation. -/
inductive DbError where
  | known (code : String)
  | unknown (msg : String)
deriving DecidableEq

/-- Data passed to the create helpers. Amounts are exact decimals
(`Prisma.Decimal`); only equality on them matters here, so they are
modelled as integer minor units. -/
structure TxData where
  internal_account_id : Nat
  amount : Int
  transaction_type : String
  direction : String
  idempotency_key : Option String := none
  check_number : Option String := none
  bill_pay_rule_id : Option Nat := none
  transfer_rule_id : Option Nat := none
deriving DecidableEq

/-- A persisted transaction record. -/
structure TxRecord where
  internal_account_id : Nat
  amount : Int
  transaction_type : String
  direction : String
  idempotency_key : Option String
  check_number : Option String
  bill_pay_rule_id : Option Nat
  transfer_rule_id : Option Nat
  status : String
deriving DecidableEq

/-- The record inserted by the create helpers
(`{...data, check_number: data.check_number ?? null, status}`). -/
def recordOf (d : TxData) (status : String) : TxRecord :=
  ⟨d.internal_account_id, d.amount, d.transaction_type, d.direction,
   d.idempotency_key, d.check_number, d.bill_pay_rule_id, d.transfer_rule_id,
   status⟩

/-- Result object of `createApprovedTransaction`; an absent `duplicate`
key is `false`. -/
structure WriteResult where
  success : Bool
  message : String
  duplicate : Bool := false
deriving DecidableEq

/-- Parameter object of `findExistingTransaction`. -/
structure FindParams where
  idempotency_key : Option String := none
  transaction_type : String
  internal_account_id : Nat
  amount : Int
  bill_pay_rule_id : Option Nat := none
  transfer_rule_id : Option Nat := none
  check_number : Option String := none
deriving DecidableEq

/-- The Prisma `where` of `findExistingTransaction`: the base criteria
(rule ids spread only when truthy) AND the OR of the clauses built from
a truthy idempotency key and a string-typed check number. -/
def matchesWhere (p : FindParams) (r : TxRecord) : Bool :=
  (r.transaction_type == p.transaction_type) &&
  (r.internal_account_id == p.internal_account_id) &&
  (r.amount == p.amount) &&
  (if jsTruthyNat p.bill_pay_rule_id then r.bill_pay_rule_id == p.bill_pay_rule_id else true) &&
  (if jsTruthyNat p.transfer_rule_id then r.transfer_rule_id == p.transfer_rule_id else true) &&
  ((jsTruthyStr p.idempotency_key && r.idempotency_key == p.idempotency_key) ||
   (p.check_number.isSome && r.check_number == p.check_number))

/-- Source `findExistingTransaction` over an explicit ledger. The second
component counts storage queries (`findFirst` calls): the truthiness
guard on both deduplication keys returns early without querying. -/
def findExistingTransaction (ledger : List TxRecord) (p : FindParams) :
    Option TxRecord × Nat :=
  if !jsTruthyStr p.idempotency_key && !jsTruthyStr p.check_number then (none, 0)
  else (ledger.find? (matchesWhere p), 1)

/-- Source `createApprovedTransaction`, with the outcome of the
`tx.transaction.create` call made explicit: on failure, a Prisma known
request error with code `P2002` is downgraded to a successful duplicate
only when `data.idempotency_key` is truthy; every other error is
re-thrown. -/
def createApprovedTransaction (insertOutcome : Except DbError Unit)
    (data : TxData) (successMessage : String) : Except DbError WriteResult :=
  match insertOutcome with
  | Except.ok _ => Except.ok { success := true, message := successMessage }
  | Except.error e =>
    if jsTruthyStr data.idempotency_key && (e == DbError.known "P2002") then
      Except.ok { success := true,
                  message := successMessage ++ " (idempotency key found).",
                  duplicate := true }
    else Except.error e

/-- Modelled from the spec: the storage-layer uniqueness constraint over
`(transaction_type, internal_account_id, amount,
bill_pay_rule_id|transfer_rule_id, idempotency_key|check_number)` for
`approved` records (the Prisma schema is not under `src/`). -/
def uniqueConflict (ledger : List TxRecord) (r : TxRecord) : Bool :=
  ledger.any (fun x =>
    (x.status == "approved") && (r.status == "approved") &&
    (x.transaction_type == r.transaction_type) &&
    (x.internal_account_id == r.internal_account_id) &&
    (x.amount == r.amount) &&
    (x.bill_pay_rule_id == r.bill_pay_rule_id) &&
    (x.transfer_rule_id == r.transfer_rule_id) &&
    ((x.idempotency_key.isSome && x.idempotency_key == r.idempotency_key) ||
     (x.check_number.isSome && x.check_number == r.check_number)))

/-- Modelled from the spec: `insert(record)` of the storage collaborator
raises the `P2002` known request error exactly on a uniqueness
violation, else appends. -/
def insertTx (ledger : List TxRecord) (r : TxRecord) :
    Except DbError (List TxRecord) :=
  if uniqueConflict ledger r then Except.error (DbError.known "P2002")
  else Except.ok (ledger ++ [r])

/-- Find parameters derived from the create data (the caller passes the
same tuple to both helpers). -/
def findParamsOf (d : TxData) : FindParams :=
  ⟨d.idempotency_key, d.transaction_type, d.internal_account_id, d.amount,
   d.bill_pay_rule_id, d.transfer_rule_id, d.check_number⟩

instance {ε α : Type} [DecidableEq ε] [DecidableEq α] :
    DecidableEq (Except ε α) := fun a b =>
  match a, b with
  | Except.ok x, Except.ok y =>
    if h : x = y then Decidable.isTrue (by rw [h])
    else Decidable.isFalse (by intro he; cases he; exact h rfl)
  | Except.error x, Except.error y =>
    if h : x = y then Decidable.isTrue (by rw [h])
    else Decidable.isFalse (by intro he; cases he; exact h rfl)
  | Except.ok _, Except.error _ => Decidable.isFalse (by intro h; cases h)
  | Except.error _, Except.ok _ => Decidable.isFalse (by intro h; cases h)

/-- Per-submission control state of the ledger writer: about to run the
duplicate lookup, about to insert, or finished with an outcome. -/
inductive Phase where
  | toFind
  | toInsert
  | finished (r : Except DbError WriteResult)
deriving DecidableEq

/-- Modelled from the spec: one pipeline step of the ledger writer
(§4.5; the transactions route composing the two helpers is not under
`src/`). Lookup first — a hit is success-with-duplicate and no write;
else insert through `createApprovedTransaction`. Each step is one
storage round trip, the suspension points of the concurrency model. -/
def procStep (d : TxData) (msg : String) :
    Phase → List TxRecord → Phase × List TxRecord
  | Phase.toFind, ledger =>
    match (findExistingTransaction ledger (findParamsOf d)).1 with
    | some _ =>
      (Phase.finished (Except.ok { success := true, message := msg, duplicate := true }),
       ledger)
    | none => (Phase.toInsert, ledger)
  | Phase.toInsert, ledger =>
    match insertTx ledger (recordOf d "approved") with
    | Except.ok ledger' =>
      (Phase.finished (createApprovedTransaction (Except.ok ()) d msg), ledger')
    | Except.error e =>
      (Phase.finished (createApprovedTransaction (Except.error e) d msg), ledger)
  | Phase.finished r, ledger => (Phase.finished r, ledger)

/-- Interleaved execution of two ledger-writer submissions: `true`
schedules a step of the first process, `false` of the second. -/
def runSched (d1 d2 : TxData) (m1 m2 : String) :
    List Bool → Phase × Phase × List TxRecord → Phase × Phase × List TxRecord
  | [], s => s
  | b :: bs, (ph1, ph2, ledger) =>
    if b then
      let (ph1', ledger') := procStep d1 m1 ph1 ledger
      runSched d1 d2 m1 m2 bs (ph1', ph2, ledger')
    else
      let (ph2', ledger') := procStep d2 m2 ph2 ledger
      runSched d1 d2 m1 m2 bs (ph1, ph2', ledger')

/-- The six schedules interleaving two two-step processes. -/
def twoStepSchedules : List (List Bool) :=
  [[true, true, false, false], [true, false, true, false],
   [true, false, false, true], [false, true, true, false],
   [false, true, false, true], [false, false, true, true]]

/-- Count of approved records for a given
`(transaction_type, internal_account_id, amount, check_number)` tuple. -/
def approvedCount (ledger : List TxRecord) (ty : String) (acct : Nat)
    (amt : Int) (c : String) : Nat :=
  (ledger.filter (fun r =>
    (r.status == "approved") && (r.transaction_type == ty) &&
    (r.internal_account_id == acct) && (r.amount == amt) &&
    (r.check_number == some c))).length

/-- A finished phase whose outcome is a success response. -/
def phaseSuccess : Phase → Bool
  | Phase.finished (Except.ok w) => w.success
  | _ => false

/-- `true` iff the flattened text contains 9 consecutive digits. -/
def hasNineRun (s : String) : Bool :=
  (digitRuns s.toList).any (fun r => 9 ≤ r.length)

/-! ## Claims -/

/-- C1, counterexample: an insert that fails with the Prisma `P2002`
unique-constraint violation is NOT downgraded to success when the data
carries no idempotency key — `createApprovedTransaction` re-raises it,
contradicting the claim that every `P2002` insert failure is reported as
success-with-duplicate. -/
theorem c1_counterexample :
    createApprovedTransaction (Except.error (DbError.known "P2002"))
      ⟨1, 100, "deposit", "inbound", none, some "c1", none, none⟩
      "Deposit recorded." =
      Except.error (DbError.known "P2002") := by
  decide

/-- C1, amended: when the create data carries a truthy idempotency key,
an insert failing with the Prisma known request error `P2002` is
reported as success with a duplicate flag; otherwise — and for every
other storage error — `createApprovedTransaction` re-raises the error
unchanged. -/
theorem c1_amended (data : TxData) (msg : String) (e : DbError) :
    (jsTruthyStr data.idempotency_key = true → e = DbError.known "P2002" →
      createApprovedTransaction (Except.error e) data msg =
        Except.ok ⟨true, msg ++ " (idempotency key found).", true⟩) ∧
    (jsTruthyStr data.idempotency_key = false ∨ e ≠ DbError.known "P2002" →
      createApprovedTransaction (Except.error e) data msg = Except.error e) := by
  constructor
  · intro h1 h2
    subst h2
    simp [createApprovedTransaction, h1]
  · intro h
    rcases h with h | h
    · simp [createApprovedTransaction, h]
    · have : (e == DbError.known "P2002") = false := by
        simpa using h
      simp [createApprovedTransaction, this]

/-- C1, witness: both branches of the amended claim at concrete inputs. -/
theorem c1_amended_witness :
    createApprovedTransaction (Except.error (DbError.known "P2002"))
      ⟨1, 100, "deposit", "inbound", some "key-1", some "c1", none, none⟩
      "Deposit recorded." =
      Except.ok ⟨true, "Deposit recorded. (idempotency key found).", true⟩ ∧
    createApprovedTransaction (Except.error (DbError.unknown "io"))
      ⟨1, 100, "deposit", "inbound", some "key-1", some "c1", none, none⟩
      "Deposit recorded." =
      Except.error (DbError.unknown "io") :=
  ⟨(c1_amended ⟨1, 100, "deposit", "inbound", some "key-1", some "c1", none, none⟩
      "Deposit recorded." (DbError.known "P2002")).1 (by decide) rfl,
   (c1_amended ⟨1, 100, "deposit", "inbound", some "key-1", some "c1", none, none⟩
      "Deposit recorded." (DbError.unknown "io")).2 (Or.inr (by decide))⟩

/-- C3: whenever the combined-provider response has an object `combined`
field whose `check_id` is a string, the POST handler's check-identity
selection returns exactly that string, for every recognition corpus
`ocrJson` — so `extractCheckId` and the text heuristics are never
consulted. -/
theorem c3_combined_check_id_verbatim (c comb : AnyObj) (s : String)
    (ocrJson : AnyObj)
    (h1 : lookupField c "combined" = some (Value.obj comb))
    (h2 : lookupField comb "check_id" = some (Value.str s)) :
    checkIdSelect (some c) ocrJson = Except.ok (some s) := by
  simp [checkIdSelect, h1, h2]

/-- C3, witness: the verbatim identity wins even though the flattened
text would yield a different heuristic identity. -/
theorem c3_witness :
    checkIdSelect (some [("combined", Value.obj [("check_id", Value.str "011000015_12_9")])])
      [("parsed_text", Value.str "999999999 11111 22222")] =
      Except.ok (some "011000015_12_9") :=
  c3_combined_check_id_verbatim
    [("combined", Value.obj [("check_id", Value.str "011000015_12_9")])]
    [("check_id", Value.str "011000015_12_9")] "011000015_12_9"
    [("parsed_text", Value.str "999999999 11111 22222")] rfl rfl

/-- C9: any recognition input whose structured `routing_number`,
`account_number` and `check_number` fields are the strings
`"021000021"`, `"123456"` and `"789"` yields the canonical identity
`"021000021_123456_789"`. -/
theorem c9_structured_identity (ocr : AnyObj)
    (h1 : lookupField ocr "routing_number" = some (Value.str "021000021"))
    (h2 : lookupField ocr "account_number" = some (Value.str "123456"))
    (h3 : lookupField ocr "check_number" = some (Value.str "789")) :
    extractCheckId ocr = some "021000021_123456_789" := by
  have hs : structuredId ocr = some "021000021_123456_789" := by
    simp [structuredId, nullishGet, h1, h2, h3, jsToStr]
  simp [extractCheckId, hs]

/-- C9, witness: the structured example of the spec, with an extra
unrelated field. -/
theorem c9_witness :
    extractCheckId [("routing_number", Value.str "021000021"),
      ("account_number", Value.str "123456"),
      ("check_number", Value.str "789"),
      ("raw_text", Value.str "pay to the order of")] =
      some "021000021_123456_789" :=
  c9_structured_identity _ rfl rfl rfl

/-- C10: with both deduplication keys absent, `findExistingTransaction`
performs no storage query and returns `null`, whatever the ledger
contains. -/
theorem c10_no_lookup_without_keys (ledger : List TxRecord) (p : FindParams)
    (h1 : p.idempotency_key = none) (h2 : p.check_number = none) :
    findExistingTransaction ledger p = (none, 0) := by
  simp [findExistingTransaction, h1, h2, jsTruthyStr]

/-- C10, witness: no lookup happens even when the ledger holds a record
matching every other criterion. -/
theorem c10_witness :
    findExistingTransaction
      [⟨1, 100, "deposit", "inbound", some "k", some "c", none, none, "approved"⟩]
      ⟨none, "deposit", 1, 100, none, none, none⟩ = (none, 0) :=
  c10_no_lookup_without_keys _ _ rfl rfl

/-- C4, counterexample: a recognition input whose structured fields form
an identity while its flattened text has no run of 9 consecutive digits —
`extractCheckId` returns a (non-null) identity, contradicting the claim
that it must return null whenever no 9-digit run exists. -/
theorem c4_counterexample :
    extractCheckId [("routing_number", Value.str "12"),
      ("account_number", Value.str "34"), ("check_number", Value.str "56")] =
      some "12_34_56" ∧
    hasNineRun (flattenText [("routing_number", Value.str "12"),
      ("account_number", Value.str "34"), ("check_number", Value.str "56")]) =
      false := by
  constructor
  · decide
  · decide

/-- C4, amended: when the structured-field strategy fails AND the
flattened text contains no run of 9 consecutive digits, `extractCheckId`
returns null deterministically. -/
theorem c4_amended (ocr : AnyObj) (h1 : structuredId ocr = none)
    (h2 : hasNineRun (flattenText ocr) = false) :
    extractCheckId ocr = none := by
  have h2' : ∀ r ∈ digitRuns (flattenText ocr).toList, r.length < 9 := by
    intro r hr
    by_contra hcon
    have ht : hasNineRun (flattenText ocr) = true := by
      simp only [hasNineRun, List.any_eq_true, decide_eq_true_eq]
      exact ⟨r, hr, by omega⟩
    rw [h2] at ht
    cases ht
  have h3 : firstNineRun (flattenText ocr).toList = none := by
    unfold firstNineRun
    have hf : (digitRuns (flattenText ocr).toList).find?
        (fun r => decide (9 ≤ r.length)) = none := by
      rw [List.find?_eq_none]
      intro x hx
      simp only [decide_eq_true_eq]
      have := h2' x hx
      omega
    rw [hf]
    rfl
  have h3' : firstNineRun (flattenText ocr).data = none := h3
  simp [extractCheckId, h1, h3']

/-- C4, witness: digits present but no 9-digit run, no structured
identity. -/
theorem c4_amended_witness :
    structuredId [("parsed_text", Value.str "hello 1234 and 5678")] = none ∧
    hasNineRun (flattenText [("parsed_text", Value.str "hello 1234 and 5678")]) = false ∧
    extractCheckId [("parsed_text", Value.str "hello 1234 and 5678")] = none :=
  ⟨by decide, by decide,
   c4_amended [("parsed_text", Value.str "hello 1234 and 5678")] (by decide) (by decide)⟩

/-- C5: evaluating `extractAmount` at the spec's own example — a
recognition input with no structured amount field whose flattened text
contains `"$1,234.56 due"` — yields the string `"1.234.56"`, not the
claimed `"1234.56"`: the capture's `.replace(/,/g, ".")` turns the
thousands separator into a second decimal point (and the handler's
later `Number` parse of `"1.234.56"` is `NaN`). -/
theorem c5_code_bug_eval :
    extractAmount [("parsed_text", Value.str "$1,234.56 due")] = some "1.234.56" ∧
    amountCentsOf (some "1.234.56") = none := by
  constructor
  · decide
  · decide

/-- C6: a request whose back-side result has flattened text
`"endorsement"` and no structured `endorsement_present` field produces
`endorsement_present: false` in the response, although
`detectEndorsement` on that back-side result is `true`: every operand of
the `??` chain is a non-nullish boolean, so the chain stops at
`tryBool(backResp)` and the keyword fallback is unreachable. -/
theorem c6_code_bug_eval :
    postCore [] [("raw_text", Value.str "endorsement")]
      (some [("combined", Value.obj [("check_id", Value.str "w8")])]) none =
      ⟨201, some "w8", none, false, false⟩ ∧
    detectEndorsement [("raw_text", Value.str "endorsement")] = true := by
  constructor
  · decide
  · decide

/-- C7, counterexample: a request whose extracted amount string is
unparsable (`"1.2.3"`, `Number` gives `NaN`, cents are null) still
answers 201 and skips the deposit forward, but the response body carries
the unparsable string, not `null` — contradicting the claim's "amount
null in the body" for the unparsable case. -/
theorem c7_counterexample :
    postCore [("amount", Value.str "1.2.3")] []
      (some [("combined", Value.obj [("check_id", Value.str "chk1")])])
      (some "00012345") =
      ⟨201, some "chk1", some "1.2.3", false, false⟩ ∧
    amountCentsOf (some "1.2.3") = none := by
  constructor
  · decide
  · decide

/-- C7, amended: whenever the check identity is extracted but no
canonical cents amount is available (the amount string is null or
unparsable), the POST handler answers 201 with the extracted amount
string (null exactly when extraction failed) in the body, and the
deposit forward is skipped — a success, not an error. -/
theorem c7_amended (front back : AnyObj) (combined : Option AnyObj)
    (dest : Option String) (cid : String) (astr : Option String)
    (h1 : checkIdSelect combined (ocrJsonOf front back combined) =
      Except.ok (some cid))
    (h2 : amountStringSel front back combined (ocrJsonOf front back combined) =
      Except.ok astr)
    (h3 : amountCentsOf astr = none) :
    postCore front back combined dest =
      ⟨201, some cid, astr,
       endorsementOf front back (ocrJsonOf front back combined), false⟩ := by
  simp [postCore, h1, h2, h3]

/-- C7, witness: amount extraction fails outright — the response is 201
with a null amount and no deposit forward, although a destination
account exists. -/
theorem c7_amended_witness :
    postCore [] [] (some [("combined", Value.obj [("check_id", Value.str "w7")])])
      (some "999") =
      ⟨201, some "w7", none,
       endorsementOf [] []
         (ocrJsonOf [] [] (some [("combined", Value.obj [("check_id", Value.str "w7")])])),
       false⟩ :=
  c7_amended [] [] (some [("combined", Value.obj [("check_id", Value.str "w7")])])
    (some "999") "w7" none (by decide) (by decide) rfl

/-- C2, counterexample: two concurrent submissions of the same check —
identical transaction type, account, amount and check number, no
idempotency key — under the schedule lookup₁, lookup₂, insert₁, insert₂:
exactly one approved record exists afterward, but the second caller
receives the re-raised `P2002` storage error, not a success response. -/
theorem c2_counterexample :
    (runSched ⟨1, 100, "deposit", "inbound", none, some "c1", none, none⟩
        ⟨1, 100, "deposit", "inbound", none, some "c1", none, none⟩
        "m" "m" [true, false, true, false]
        (Phase.toFind, Phase.toFind, [])).2.1 =
      Phase.finished (Except.error (DbError.known "P2002")) ∧
    approvedCount
      (runSched ⟨1, 100, "deposit", "inbound", none, some "c1", none, none⟩
        ⟨1, 100, "deposit", "inbound", none, some "c1", none, none⟩
        "m" "m" [true, false, true, false]
        (Phase.toFind, Phase.toFind, [])).2.2 "deposit" 1 100 "c1" = 1 := by
  constructor
  · decide
  · decide

/-- C2, amended: when each of the two concurrent submissions carries a
(possibly different) non-empty idempotency key along with the identical
`(transaction_type, internal_account_id, amount, check_number)` tuple,
then under every interleaving of their lookup and insert steps exactly
one approved record for that tuple exists afterward and both callers
receive a success response. -/
theorem c2_amended (sched : List Bool) (hs : sched ∈ twoStepSchedules)
    (ty dir1 dir2 m1 m2 : String) (acct : Nat) (amt : Int) (k1 k2 c : String)
    (hk1 : k1 ≠ "") (hk2 : k2 ≠ "") :
    phaseSuccess (runSched ⟨acct, amt, ty, dir1, some k1, some c, none, none⟩
      ⟨acct, amt, ty, dir2, some k2, some c, none, none⟩ m1 m2 sched
      (Phase.toFind, Phase.toFind, [])).1 = true ∧
    phaseSuccess (runSched ⟨acct, amt, ty, dir1, some k1, some c, none, none⟩
      ⟨acct, amt, ty, dir2, some k2, some c, none, none⟩ m1 m2 sched
      (Phase.toFind, Phase.toFind, [])).2.1 = true ∧
    approvedCount (runSched ⟨acct, amt, ty, dir1, some k1, some c, none, none⟩
      ⟨acct, amt, ty, dir2, some k2, some c, none, none⟩ m1 m2 sched
      (Phase.toFind, Phase.toFind, [])).2.2 ty acct amt c = 1 := by
  have hk1' : (k1 == "") = false := by simpa using hk1
  have hk2' : (k2 == "") = false := by simpa using hk2
  simp only [twoStepSchedules, List.mem_cons, List.not_mem_nil, or_false] at hs
  rcases hs with h | h | h | h | h | h <;> subst h <;>
    simp [runSched, procStep, findExistingTransaction, findParamsOf,
      jsTruthyStr, matchesWhere, insertTx, uniqueConflict, recordOf,
      createApprovedTransaction, approvedCount, phaseSuccess, hk1', hk2']

/-- C2, witness: a concrete racing interleaving with distinct keys. -/
theorem c2_amended_witness :
    phaseSuccess (runSched ⟨7, 2500, "deposit", "inbound", some "ka", some "c9", none, none⟩
      ⟨7, 2500, "deposit", "inbound", some "kb", some "c9", none, none⟩ "m1" "m2"
      [true, false, true, false] (Phase.toFind, Phase.toFind, [])).1 = true ∧
    phaseSuccess (runSched ⟨7, 2500, "deposit", "inbound", some "ka", some "c9", none, none⟩
      ⟨7, 2500, "deposit", "inbound", some "kb", some "c9", none, none⟩ "m1" "m2"
      [true, false, true, false] (Phase.toFind, Phase.toFind, [])).2.1 = true ∧
    approvedCount (runSched ⟨7, 2500, "deposit", "inbound", some "ka", some "c9", none, none⟩
      ⟨7, 2500, "deposit", "inbound", some "kb", some "c9", none, none⟩ "m1" "m2"
      [true, false, true, false] (Phase.toFind, Phase.toFind, [])).2.2
      "deposit" 7 2500 "c9" = 1 :=
  c2_amended [true, false, true, false] (by decide) "deposit" "inbound" "inbound"
    "m1" "m2" 7 2500 "ka" "kb" "c9" (by decide) (by decide)

/-! ### Digit rendering / parsing facts for C8 -/

theorem digitChar_isDigit {d : Nat} (h : d < 10) :
    (Nat.digitChar d).isDigit = true := by
  interval_cases d <;> decide

theorem digitChar_val {d : Nat} (h : d < 10) :
    (Nat.digitChar d).toNat - 48 = d := by
  interval_cases d <;> decide

theorem natToDigits_ne_nil (n : Nat) : natToDigits n ≠ [] := by
  unfold natToDigits
  split
  · simp
  · simp

theorem natToDigits_all_digits (n : Nat) :
    ∀ c ∈ natToDigits n, c.isDigit = true := by
  induction n using Nat.strong_induction_on with
  | _ n ih =>
    unfold natToDigits
    split
    · next h =>
      intro c hc
      simp only [List.mem_singleton] at hc
      subst hc
      exact digitChar_isDigit h
    · next h =>
      intro c hc
      rw [List.mem_append] at hc
      rcases hc with hc | hc
      · exact ih (n / 10) (Nat.div_lt_self (by omega) (by omega)) c hc
      · simp only [List.mem_singleton] at hc
        subst hc
        exact digitChar_isDigit (Nat.mod_lt _ (by omega))

theorem digitsToNat_singleton (c : Char) : digitsToNat [c] = c.toNat - 48 := by
  simp [digitsToNat]

theorem digitsToNat_append_one (xs : List Char) (c : Char) :
    digitsToNat (xs ++ [c]) = 10 * digitsToNat xs + (c.toNat - 48) := by
  unfold digitsToNat
  rw [List.foldl_append]
  rfl

theorem digitsToNat_natToDigits (n : Nat) : digitsToNat (natToDigits n) = n := by
  induction n using Nat.strong_induction_on with
  | _ n ih =>
    unfold natToDigits
    split
    · next h =>
      rw [digitsToNat_singleton, digitChar_val h]
    · next h =>
      rw [digitsToNat_append_one,
        ih (n / 10) (Nat.div_lt_self (by omega) (by omega)),
        digitChar_val (Nat.mod_lt _ (by omega))]
      omega

theorem natToDigits_len2 {r : Nat} (h1 : 10 ≤ r) (h2 : r < 100) :
    (natToDigits r).length = 2 := by
  unfold natToDigits
  rw [dif_neg (by omega)]
  have hq : natToDigits (r / 10) = [Nat.digitChar (r / 10)] := by
    unfold natToDigits
    rw [dif_pos (by omega)]
  rw [hq]
  rfl

theorem padFrac_len {r : Nat} (h : r < 100) : (padFrac r).length = 2 := by
  unfold padFrac
  split
  · rfl
  · next h10 => exact natToDigits_len2 (by omega) h

theorem padFrac_val {r : Nat} (_h : r < 100) : digitsToNat (padFrac r) = r := by
  unfold padFrac
  split
  · next h10 =>
    have h0 : digitsToNat ['0', Nat.digitChar r] =
        (Nat.digitChar r).toNat - 48 := by
      simp [digitsToNat]
    rw [h0, digitChar_val h10]
  · next h10 => exact digitsToNat_natToDigits r

theorem padFrac_digits {r : Nat} : ∀ c ∈ padFrac r, c.isDigit = true := by
  unfold padFrac
  split
  · next h10 =>
    intro c hc
    rcases List.mem_cons.mp hc with rfl | hc
    · decide
    · simp only [List.mem_singleton] at hc
      subst hc
      exact digitChar_isDigit h10
  · next h10 =>
    exact natToDigits_all_digits r

theorem beq_eq_false_of_isDigit_ne {c a : Char} (h : c.isDigit = true)
    (ha : a.isDigit = false) : (a == c) = false := by
  cases hb : (a == c) with
  | false => rfl
  | true =>
    have he : a = c := eq_of_beq hb
    subst he
    rw [h] at ha
    cases ha

theorem contains_false_of (a : Char) (l : List Char)
    (h : ∀ c ∈ l, (a == c) = false) : l.contains a = false := by
  induction l with
  | nil => rfl
  | cons c cs ih =>
    have hc := h c (List.mem_cons_self _ _)
    have hrest := ih (fun x hx => h x (List.mem_cons_of_mem _ hx))
    simp only [List.contains, List.elem] at *
    rw [hc]
    exact hrest

theorem takeWhile_append_dot (ds fs : List Char)
    (hds : ∀ c ∈ ds, c.isDigit = true) :
    (ds ++ '.' :: fs).takeWhile (fun c => !(c == '.')) = ds ∧
    (ds ++ '.' :: fs).dropWhile (fun c => !(c == '.')) = '.' :: fs := by
  induction ds with
  | nil =>
    constructor <;> simp [List.takeWhile_cons, List.dropWhile_cons]
  | cons c cs ih =>
    have hc : c.isDigit = true := hds c (List.mem_cons_self _ _)
    have hcd : (c == '.') = false := by
      cases hb : (c == '.') with
      | false => rfl
      | true =>
        have he : c = '.' := eq_of_beq hb
        subst he
        exact absurd hc (by decide)
    obtain ⟨h1, h2⟩ := ih (fun x hx => hds x (List.mem_cons_of_mem _ hx))
    constructor
    · simp [List.takeWhile_cons, hcd, h1]
    · simp [List.dropWhile_cons, hcd, h2]

theorem jsNumber_decimal (ds fs : List Char) (hne : ds ≠ [])
    (hds : ∀ c ∈ ds, c.isDigit = true) (hfs : ∀ c ∈ fs, c.isDigit = true) :
    jsNumber (ds ++ '.' :: fs) =
      some ((digitsToNat ds : Rat) +
        (digitsToNat fs : Rat) / ((10 : Rat) ^ fs.length)) := by
  obtain ⟨d, ds', rfl⟩ := List.exists_cons_of_ne_nil hne
  have hd : d.isDigit = true := hds d (List.mem_cons_self _ _)
  have hdnotdash : d ≠ '-' := by
    intro he
    subst he
    exact absurd hd (by decide)
  have hmemchar : ∀ c ∈ (d :: ds') ++ '.' :: fs, ('-' == c) = false := by
    intro c hc
    rcases List.mem_append.mp hc with hc | hc
    · exact beq_eq_false_of_isDigit_ne (hds c hc) (by decide)
    · rcases List.mem_cons.mp hc with rfl | hc
      · decide
      · exact beq_eq_false_of_isDigit_ne (hfs c hc) (by decide)
  have hcontdash : ((d :: ds') ++ '.' :: fs).contains '-' = false :=
    contains_false_of _ _ hmemchar
  have hcontdot : fs.contains '.' = false := by
    refine contains_false_of _ _ (fun c hc => ?_)
    exact beq_eq_false_of_isDigit_ne (hfs c hc) (by decide)
  obtain ⟨htake, hdrop⟩ := takeWhile_append_dot (d :: ds') fs hds
  have hdig1 : isDigits (d :: ds') = true :=
    List.all_eq_true.mpr (fun c hc => hds c hc)
  have hdig2 : isDigits fs = true :=
    List.all_eq_true.mpr (fun c hc => hfs c hc)
  have hp : (match d :: (ds' ++ '.' :: fs) with
      | '-' :: rest => (true, rest)
      | _ => (false, d :: (ds' ++ '.' :: fs))) =
      ((false, d :: (ds' ++ '.' :: fs)) : Bool × List Char) := by
    split
    · next rest hpat =>
      obtain ⟨h1, _⟩ := List.cons.inj hpat
      exact absurd h1 hdnotdash
    · rfl
  simp only [List.cons_append] at hcontdash htake hdrop
  unfold jsNumber
  simp only [List.cons_append]
  simp only [hp]
  simp [hcontdash, htake, hdrop, hcontdot, hdig1, hdig2]
  refine ⟨⟨fun he => hdnotdash he.symm, fun hm => ?_, fun hm => ?_⟩, fun hm => ?_⟩
  · exact absurd (hds '-' (List.mem_cons_of_mem _ hm)) (by decide)
  · exact absurd (hfs '-' hm) (by decide)
  · exact absurd (hfs '.' hm) (by decide)

theorem c8_main_aux (n : Nat) :
    amountCentsOf (some (renderCents n)) = some (n : Int) := by
  have hmod : n % 100 < 100 := Nat.mod_lt _ (by omega)
  have hne : renderCents n ≠ "" := by
    intro h
    have hdata := congrArg String.data h
    simp only [renderCents] at hdata
    rcases List.append_eq_nil.mp hdata with ⟨h1, _⟩
    exact natToDigits_ne_nil _ h1
  simp only [amountCentsOf]
  rw [if_neg hne]
  have htl : (renderCents n).toList =
      natToDigits (n / 100) ++ '.' :: padFrac (n % 100) := rfl
  rw [htl]
  have hkeep : (natToDigits (n / 100) ++ '.' :: padFrac (n % 100)).filter
      keepAmountChar = natToDigits (n / 100) ++ '.' :: padFrac (n % 100) := by
    rw [List.filter_eq_self]
    intro c hc
    rcases List.mem_append.mp hc with hc | hc
    · simp [keepAmountChar, natToDigits_all_digits _ c hc]
    · rcases List.mem_cons.mp hc with rfl | hc
      · decide
      · simp [keepAmountChar, padFrac_digits c hc]
  rw [hkeep]
  rw [jsNumber_decimal _ _ (natToDigits_ne_nil _) (natToDigits_all_digits _)
    padFrac_digits]
  rw [digitsToNat_natToDigits, padFrac_val hmod, padFrac_len hmod]
  have harith : (((n / 100 : Nat) : Rat) +
      ((n % 100 : Nat) : Rat) / ((10 : Rat) ^ 2)) * 100 = (n : Rat) := by
    have hm : (100 * (n / 100) + n % 100 : Nat) = n := Nat.div_add_mod n 100
    have hcast : (n : Rat) = ((100 * (n / 100) + n % 100 : Nat) : Rat) := by
      rw [hm]
    rw [hcast]
    push_cast
    ring
  show some (jsRound ((((n / 100 : Nat) : Rat) +
    ((n % 100 : Nat) : Rat) / ((10 : Rat) ^ 2)) * 100)) = some (n : Int)
  unfold jsRound
  rw [harith]
  have hcast2 : ((n : Rat) + 1 / 2) = (((n : Int) : Rat) + 1 / 2) := by
    push_cast
    ring
  rw [hcast2, Int.floor_int_add]
  norm_num

/-- C8: amount canonicalization is idempotent — canonicalizing the
two-fractional-digit decimal rendering of any non-negative cents value
`n` yields `n` again; in particular `"50.50"` canonicalizes to `5050`
and `"100.00"` to `10000`. (JavaScript numbers are modelled as exact
rationals; `Math.round` as round half up.) -/
theorem c8_canonicalization_idempotent :
    (∀ n : Nat, amountCentsOf (some (renderCents n)) = some (n : Int)) ∧
    amountCentsOf (some "50.50") = some 5050 ∧
    amountCentsOf (some "100.00") = some 10000 := by
  have main : ∀ n : Nat, amountCentsOf (some (renderCents n)) = some (n : Int) :=
    fun n => c8_main_aux n
  refine ⟨main, ?_, ?_⟩
  · have h50 : renderCents 5050 = "50.50" := by
      simp [renderCents, natToDigits, padFrac, Nat.digitChar]
    have h := main 5050
    rw [h50] at h
    simpa using h
  · have h100 : renderCents 10000 = "100.00" := by
      simp [renderCents, natToDigits, padFrac, Nat.digitChar]
    have h := main 10000
    rw [h100] at h
    simpa using h

end Spec2Proof
